import Mathlib

/- Shallow embedding of the interview-orchestration core of the
multi-agent LLM interviewer repository: session state, the Observer
assessment update, the Coordinator decision and its fallback, the
Interviewer question generation, the session logger, the Reporter
level lookup, and the state-machine wiring of the workflow graph
(core/graph.py).  Numeric scores are rationals; Python dictionaries
with possibly missing keys are Option fields; a statement raising an
exception is modelled by an optional error threaded next to the
mutated object, because Python mutates these objects in place.  Calls
to the external reasoning service and the knowledge base are modelled
as oracle parameters giving the outcome of each call. -/

set_option linter.unusedVariables false

namespace Interview

/-- Python whitespace test for the characters this program handles
(space, tab, newline, carriage return). -/
def pyIsWs (c : Char) : Bool :=
  c.toNat = 32 || c.toNat = 9 || c.toNat = 10 || c.toNat = 13

/-- Python str.lower restricted to the alphabets this program actually
compares: ASCII A-Z and the Cyrillic range А-Я, Ё. -/
def pyCharLower (c : Char) : Char :=
  if 0x41 ≤ c.toNat ∧ c.toNat ≤ 0x5A then Char.ofNat (c.toNat + 0x20)
  else if 0x410 ≤ c.toNat ∧ c.toNat ≤ 0x42F then Char.ofNat (c.toNat + 0x20)
  else if c.toNat = 0x401 then Char.ofNat 0x451
  else c

/-- Python str.lower on a whole string. -/
def pyLower (s : String) : String := ⟨s.data.map pyCharLower⟩

/-- Python str.strip: drop whitespace from both ends. -/
def pyStrip (s : String) : String :=
  ⟨((s.data.dropWhile pyIsWs).reverse.dropWhile pyIsWs).reverse⟩

/-- Python s[:n] on a string: the first n characters. -/
def pyTake (s : String) (n : Nat) : String := ⟨s.data.take n⟩

/-- Python s.endswith(c) for a one-character suffix: the last
character of the string is c. -/
def lastCharIs (s : String) (c : Char) : Bool := s.data.getLast? = some c

/-- Python s.startswith(p). -/
def pyStartsWith (s p : String) : Bool := p.data.isPrefixOf s.data

/-- Counts words the way len(s.split()) does: maximal nonempty runs
of non-whitespace characters. -/
def wordCountAux : List Char → Bool → Nat
  | [], _ => 0
  | c :: t, inw =>
      if pyIsWs c then wordCountAux t false
      else (if inw then 0 else 1) + wordCountAux t true

/-- Python len(s.split()). -/
def wordCount (s : String) : Nat := wordCountAux s.data false

/-- Python substring containment, needle in hay. -/
def containsSub (needle : List Char) : List Char → Bool
  | [] => needle.isEmpty
  | c :: t => needle.isPrefixOf (c :: t) || containsSub needle t

/-- Rendering of a score inside an f-string; exact Python number
formatting is immaterial to every property below, only that it is a
deterministic function of the value. -/
def ratStr (q : ℚ) : String :=
  if q.den = 1 then toString q.num
  else toString q.num ++ "/" ++ toString q.den

/-- Assessment from core/state.py: the running candidate profile
(pydantic model; knowledge_gaps is an insertion-ordered dict). -/
structure Assessment where
  technical_score : ℚ := 0
  communication_score : ℚ := 0
  confidence_score : ℚ := 0
  topics_covered : List String := []
  confirmed_skills : List String := []
  knowledge_gaps : List (String × String) := []
  soft_skills_notes : List String := []
deriving Repr, DecidableEq

/-- The zero-valued Assessment produced by Assessment() at session start. -/
def Assessment.init : Assessment := {}

/-- CandidateInfo from core/state.py. -/
structure CandidateInfo where
  name : String := "Анонимный кандидат"
  position : String
  grade : String
  experience_years : ℚ
  technologies : List String := []
deriving Repr, DecidableEq

/-- Chat message from core/state.py (timestamps are out of scope). -/
structure Msg where
  role : String
  content : String
deriving Repr, DecidableEq

/-- Parsed Observer analysis: a JSON dictionary whose keys may be
absent, since json.loads imposes no schema.  A missing key is none; a
direct bracket access on a missing key raises KeyError. -/
structure AnalysisDict where
  technical_score : Option ℚ := none
  completeness_score : Option ℚ := none
  confidence_score : Option ℚ := none
  communication_score : Option ℚ := none
  has_errors : Option Bool := none
  errors_list : List String := []
  is_evasive : Option Bool := none
  depth_of_knowledge : Option String := none
  recommendation_for_next_question : Option String := none
  suggested_correction : Option String := none
  reasoning : Option String := none
deriving Repr, DecidableEq

/-- Fully-populated analysis dictionary, the shape of every dictionary
the program builds itself (fallback analyses and the documented schema). -/
def mkAnalysis (t cp cf cm : ℚ) (he : Bool) (errs : List String) (ev : Bool)
    (dk rec corr : String) : AnalysisDict :=
  { technical_score := some t
    completeness_score := some cp
    confidence_score := some cf
    communication_score := some cm
    has_errors := some he
    errors_list := errs
    is_evasive := some ev
    depth_of_knowledge := some dk
    recommendation_for_next_question := some rec
    suggested_correction := some corr }

/-- Python dict assignment d[k] = v on an insertion-ordered dict:
overwrite in place if the key exists, else append at the end. -/
def dictInsert (l : List (String × String)) (k v : String) :
    List (String × String) :=
  if l.any (fun kv => kv.1 = k) then
    l.map (fun kv => if kv.1 = k then (k, v) else kv)
  else l ++ [(k, v)]

/-- ObserverAgent._update_assessment from agents/observer.py.  The
statements run in source order mutating the Assessment object in
place; a KeyError from a missing analysis key aborts the remaining
statements but keeps the mutations already made, so the result is the
final object state paired with the optional raised error. -/
def updateAssessmentRun (a : Assessment) (an : AnalysisDict) :
    Assessment × Option String :=
  match an.technical_score with
  | none => (a, some "KeyError: technical_score")
  | some t =>
    let a1 := { a with technical_score := a.technical_score * 0.7 + t * 0.3 }
    match an.communication_score with
    | none => (a1, some "KeyError: communication_score")
    | some cm =>
      let a2 := { a1 with communication_score :=
                    a1.communication_score * 0.7 + cm * 0.3 }
      match an.confidence_score with
      | none => (a2, some "KeyError: confidence_score")
      | some cf =>
        let a3 := { a2 with confidence_score :=
                      a2.confidence_score * 0.7 + cf * 0.3 }
        match an.has_errors with
        | none => (a3, some "KeyError: has_errors")
        | some he =>
          let corr := an.suggested_correction.getD ""
          let gaps := dictInsert a3.knowledge_gaps "текущая тема" (pyTake corr 200)
          let a4 := if he ∧ corr ≠ "" then { a3 with knowledge_gaps := gaps }
                    else a3
          match an.is_evasive with
          | none => (a4, some "KeyError: is_evasive")
          | some ev =>
            let a5 := if ev then
                        { a4 with soft_skills_notes := a4.soft_skills_notes ++
                            ["Кандидат был уклончив в ответе"] }
                      else a4
            match an.depth_of_knowledge with
            | none => (a5, some "KeyError: depth_of_knowledge")
            | some dk =>
              let a6 := if dk = "deep" then
                          { a5 with soft_skills_notes := a5.soft_skills_notes ++
                              ["Показал глубокое понимание темы"] }
                        else a5
              (a6, none)

/-- Folding the assessment update over a sequence of evaluations; each
step keeps the object state the update left behind. -/
def applyEvaluations (a : Assessment) (l : List AnalysisDict) : Assessment :=
  l.foldl (fun acc an => (updateAssessmentRun acc an).1) a

/-- One persisted turn of the session log (core/logger.py). -/
structure Turn where
  turn_id : Nat
  agent_visible_message : String
  user_message : String
  internal_thoughts : String
deriving Repr, DecidableEq

/-- The in-state log structure built by InterviewLogger.init_log_data
(timestamps are out of scope). -/
structure LogData where
  participant_name : String
  turns : List Turn
  final_feedback : String
deriving Repr, DecidableEq

/-- InterviewLogger.init_log_data from core/logger.py. -/
def init_log_data (candidate : CandidateInfo) : LogData :=
  { participant_name := candidate.name, turns := [], final_feedback := "" }

/-- InterviewLogger.add_turn from core/logger.py: appends a turn whose
turn_id is one plus the number of turns already in the log. -/
def add_turn (log : LogData) (agent_visible_message user_message
    internal_thoughts : String) : LogData :=
  { log with turns := log.turns ++
      [{ turn_id := log.turns.length + 1
         agent_visible_message := agent_visible_message
         user_message := user_message
         internal_thoughts := internal_thoughts }] }

/-- InterviewLogger.save_final_feedback, reduced to the field it sets
in the persisted object (durations are out of scope). -/
def save_final_feedback (log : LogData) (text : String) : LogData :=
  { log with final_feedback := text }

/-- Session state (TypedDict InterviewState from core/state.py),
restricted to the fields the orchestration reads and writes. -/
structure InterviewState where
  candidate_info : CandidateInfo
  messages : List Msg := []
  current_topic : String := ""
  difficulty_level : Nat := 2
  assessment : Assessment := Assessment.init
  questions_asked : List String := []
  observer_recommendation : Option String := none
  need_feedback : Bool := false
  interview_complete : Bool := false
  current_question : Option String := none
  current_answer : Option String := none
  coordinator_instruction : Option String := none
  log_data : LogData
  current_turn_thoughts : List String := []
deriving Repr, DecidableEq

/-- Raw Coordinator decision, the JSON dictionary the reasoning
service may return for decide_next_step (keys may be absent). -/
structure CoordDict where
  action : Option String := none
  new_topic : Option String := none
  new_difficulty : Option Nat := none
  reasoning : Option String := none
  instruction_to_interviewer : Option String := none
deriving Repr, DecidableEq

/-- Outcome of the Coordinator reasoning-service call: a parsed JSON
object, unparsable text (json.JSONDecodeError), or a raised transport
or attribute error. -/
inductive CoordLLMResult where
  | parsed (d : CoordDict)
  | unparsable
  | exn
deriving Repr, DecidableEq

/-- CoordinatorAgent._create_fallback_decision from agents/coordinator.py.
When questions_count is at least 5 and below the max-turns limit, the
source calls .get("technical_score", 0) on the value of
state.get("assessment", empty-dict default); the state holds a pydantic
Assessment object, which has no get method, so the call raises
AttributeError instead of producing a decision. -/
def create_fallback_decision (MAX_TURNS : Nat) (state : InterviewState) :
    Except String CoordDict :=
  let questions_count := state.questions_asked.length
  if questions_count ≥ MAX_TURNS then
    .ok { action := some "end_interview"
          new_topic := some state.current_topic
          new_difficulty := some state.difficulty_level
          reasoning := some "Достигнут лимит вопросов"
          instruction_to_interviewer := some "Задай следующий вопрос" }
  else if questions_count ≥ 5 then
    .error "AttributeError: Assessment object has no attribute get"
  else
    .ok { action := some "continue"
          new_topic := some state.current_topic
          new_difficulty := some state.difficulty_level
          reasoning := some "Продолжаем интервью (fallback)"
          instruction_to_interviewer := some "Задай следующий вопрос" }

/-- Validation applied to a parsed Coordinator decision in
decide_next_step: unknown or missing action becomes continue, and the
reasoning and instruction keys get defaults when absent. -/
def sanitizeCoordDecision (d : CoordDict) : CoordDict :=
  let act := match d.action with
    | some a => if a = "continue" ∨ a = "change_topic" ∨ a = "end_interview"
                then a else "continue"
    | none => "continue"
  { d with action := some act
           reasoning := some (d.reasoning.getD "Продолжаем интервью")
           instruction_to_interviewer :=
             some (d.instruction_to_interviewer.getD "Задай следующий вопрос") }

/-- CoordinatorAgent.decide_next_step from agents/coordinator.py: a
parsed reply is sanitized and returned; unparsable output or a raised
call error falls back to _create_fallback_decision, whose own
AttributeError is raised inside the except handler and so propagates
out of the agent. -/
def decide_next_step (MAX_TURNS : Nat) (state : InterviewState)
    (llm : CoordLLMResult) : Except String CoordDict :=
  match llm with
  | .parsed d => .ok (sanitizeCoordDecision d)
  | .unparsable => create_fallback_decision MAX_TURNS state
  | .exn => create_fallback_decision MAX_TURNS state

/-- CoordinatorAgent.should_end_interview from agents/coordinator.py. -/
def should_end_interview (MAX_TURNS : Nat) (state : InterviewState) : Bool :=
  if state.interview_complete then true
  else if state.questions_asked.length ≥ MAX_TURNS then true
  else if state.questions_asked.length ≥ 5 ∧ state.assessment.technical_score > 7
  then true
  else false

/-- ObserverAgent._create_empty_analysis from agents/observer.py. -/
def create_empty_analysis : AnalysisDict :=
  mkAnalysis 0 0 0 5 false [] false "unknown" "Продолжить тему" ""

/-- The short or evasive answers recognized by the Observer fallback. -/
def shortResponses : List String :=
  ["ничем", "не знаю", "не помню", "нет", "не", "no", "don\x27t know"]

/-- The fixed generic correction emitted for trivially short answers. -/
def shortAnswerCorrection : String :=
  "Списки изменяемы (mutable), кортежи неизменяемы (immutable). Списки используют [], кортежи используют (). Пример использования списка: для хранения элементов, которые могут изменяться. Пример использования кортежа: для координат (x, y) или константных данных."

/-- ObserverAgent._fallback_analysis from agents/observer.py, the
deterministic analysis used when the reasoning call fails or its
output cannot be parsed; conf and info come from the knowledge-base
verification result. -/
def fallback_analysis (answer : String) (conf : ℚ) (info : String) :
    AnalysisDict :=
  let answer_lower := pyStrip (pyLower answer)
  let answer_length := wordCount answer
  if shortResponses.contains answer_lower ∨ answer_length ≤ 2 then
    mkAnalysis 1 1 2 3 true
      ["Слишком краткий ответ", "Не показано понимание темы"] true "shallow"
      "Задать более простой вопрос по той же теме или уточняющий вопрос"
      shortAnswerCorrection
  else
    let score : ℚ := if answer_length < 15 then 3
                     else if answer_length > 100 then 7 else 5
    let confidence : ℚ := if answer_length < 15 then 3
                          else if answer_length > 100 then 8 else 5
    let is_evasive := answer_length < 15
    mkAnalysis score score confidence 5 (decide (conf < 0.4))
      (if answer_length < 25 then ["Неполный ответ"] else [])
      is_evasive
      (if score > 6 then "adequate" else "shallow")
      (if score > 5 then "Продолжить тему" else "Упростить вопрос")
      info

/-- Outcome of the Observer reasoning-service call. -/
inductive ObsLLMResult where
  | parsed (d : AnalysisDict)
  | unparsable
  | exn
deriving Repr, DecidableEq

/-- Result of ObserverAgent.analyze_answer: skipped for missing data,
returned normally, or aborted by a raised error; in the last case the
Assessment object keeps whatever in-place mutations already happened. -/
inductive ObsOutcome where
  | skip (analysis : AnalysisDict) (a : Assessment)
  | ok (analysis : AnalysisDict) (a : Assessment)
  | raised (a : Assessment)
deriving Repr, DecidableEq

/-- Answer truncation applied before the reasoning call. -/
def truncAnswer (answer : String) : String :=
  if answer.data.length > 4000 then pyTake answer 4000 ++ "... [ответ обрезан]"
  else answer

/-- ObserverAgent.analyze_answer from agents/observer.py.  ragEnabled
mirrors settings.RAG_ENABLED; rag is the knowledge-base verification
outcome (none models a raised verification error, which leaves the
verification name unbound and makes the later prompt formatting raise
NameError before any mutation); llm is the reasoning-call outcome. -/
def observer_analyze (assessment : Assessment) (question answer : String)
    (ragEnabled : Bool) (rag : Option (ℚ × String)) (llm : ObsLLMResult) :
    ObsOutcome :=
  if question = "" ∨ answer = "" then .skip create_empty_analysis assessment
  else
    let answer2 := truncAnswer answer
    let verification : Option (ℚ × String) :=
      if ragEnabled then rag else some (1/2, "RAG отключен")
    match verification with
    | none => .raised assessment
    | some (conf, info) =>
      let analysis := match llm with
        | .parsed d => d
        | .unparsable => fallback_analysis answer2 conf info
        | .exn => fallback_analysis answer2 conf info
      match updateAssessmentRun assessment analysis with
      | (a, none) => .ok analysis a
      | (a, some _) => .raised a

/-- Static fallback question bank of InterviewerAgent._get_fallback_question
(insertion order of the Python dict preserved). -/
def fallbackBank : List (String × List String) :=
  [("python",
    ["Расскажите о своем опыте работы с Python?",
     "Какой проект на Python вы считаете самым сложным и почему?",
     "С какими Python библиотеками вы работали?",
     "Как вы отлаживаете Python код?",
     "Расскажите о паттернах проектирования в Python?"]),
   ("базы данных",
    ["Как вы проектируете схемы баз данных?",
     "Как оптимизируете медленные SQL запросы?",
     "Расскажите о вашем опыте работы с транзакциями?",
     "Как обеспечиваете безопасность баз данных?",
     "Как работаете с миграциями схемы?"])]

/-- The generic template question ending _get_fallback_question. -/
def genericQuestion (topic : String) : String :=
  "Расскажите о своем опыте работы с " ++ topic ++ "?"

/-- InterviewerAgent._get_fallback_question from agents/interviewer.py:
first unasked bank question whose topic key occurs in the lowercased
topic, else the generic template (which is not checked against the
asked list). -/
def get_fallback_question (topic : String) (difficulty : Nat)
    (asked_questions : List String) : String :=
  let topic_lower := pyLower topic
  let matching := fallbackBank.filter
    (fun kv => containsSub kv.1.data topic_lower.data)
  let candidates := matching.flatMap (fun kv => kv.2)
  match candidates.find? (fun q => !(asked_questions.contains q)) with
  | some q => q
  | none => genericQuestion topic

/-- The answer prefixes stripped from a generated question. -/
def questionLeadMarkers : List String :=
  ["Вопрос:", "Question:", "Q:", "Интервьюер:"]

/-- Prefix cleanup loop of InterviewerAgent.generate_question. -/
def stripLeadMarkers (q : String) : String :=
  questionLeadMarkers.foldl
    (fun q p => if pyStartsWith q p then pyStrip ⟨q.data.drop p.data.length⟩
                else q) q

/-- InterviewerAgent._generate_alternative_question from
agents/interviewer.py; alt is the reasoning-call outcome (none models
a raised error).  The alternative reply is returned verbatim after
strip, with no question-mark normalization. -/
def generate_alternative_question (topic : String) (difficulty : Nat)
    (asked_questions : List String) (alt : Option String) : String :=
  match alt with
  | none => get_fallback_question topic difficulty asked_questions
  | some resp =>
    let question := pyStrip resp
    if question ≠ "" ∧ ¬ asked_questions.contains question then question
    else get_fallback_question topic difficulty asked_questions

/-- InterviewerAgent.generate_question from agents/interviewer.py,
restricted to the state fields it reads; llm and alt are the outcomes
of the two reasoning calls (none models a raised error). -/
def interviewer_generate (topic : String) (difficulty : Nat)
    (asked_questions : List String) (llm alt : Option String) : String :=
  match llm with
  | none => get_fallback_question topic difficulty asked_questions
  | some resp =>
    let question := pyStrip resp
    let question := stripLeadMarkers question
    let question := if lastCharIs question '?' then question
                    else question ++ "?"
    if asked_questions.contains question then
      generate_alternative_question topic difficulty asked_questions alt
    else question

/-- FeedbackGenerator._determine_level from agents/feedback_generator.py. -/
def determine_level (grade : String) (technical_score : ℚ) : String :=
  if pyLower grade = "junior" then
    if technical_score ≥ 7 then "Middle-ready Junior" else "Junior"
  else if pyLower grade = "middle" then
    if technical_score ≥ 8 then "Senior-ready Middle"
    else if technical_score ≥ 6 then "Middle"
    else "Junior+"
  else
    if technical_score ≥ 9 then "Senior"
    else if technical_score ≥ 7 then "Middle+"
    else "Под вопросом"

/-- FeedbackGenerator._determine_hiring_recommendation from
agents/feedback_generator.py. -/
def determine_hiring_recommendation (tech_score comm_score : ℚ) : String :=
  if tech_score ≥ 8 ∧ comm_score ≥ 7 then "Strong Hire"
  else if tech_score ≥ 6 ∧ comm_score ≥ 5 then "Hire"
  else if tech_score ≥ 4 then "Hire with reservations"
  else "No Hire"

/-- Stages of the workflow graph built in InterviewWorkflow.__init__. -/
inductive Stage where
  | start
  | routing
  | asking
  | awaiting
  | evaluating
  | reporting
  | done
deriving Repr, DecidableEq

/-- Oracle values for one state-machine step: outcomes of every
external interaction the step may perform. -/
structure Oracle where
  coordLLM : CoordLLMResult := CoordLLMResult.exn
  interviewerLLM : Option String := none
  interviewerAlt : Option String := none
  userInput : Option String := none
  ragEnabled : Bool := false
  ragResult : Option (ℚ × String) := none
  obsLLM : ObsLLMResult := ObsLLMResult.exn
  feedbackText : String := ""
deriving Repr, DecidableEq

/-- InterviewWorkflow.start_interview, on a state whose fields were
all initialized by run(). -/
def start_interview_node (state : InterviewState) : InterviewState :=
  { state with interview_complete := false
               need_feedback := false
               current_question := none
               current_answer := none
               coordinator_instruction := none }

/-- InterviewWorkflow.coordinator_decision from core/graph.py.  A
raised error from decide_next_step is uncaught there and crashes the
session, hence the Except result. -/
def coordinator_decision_node (MAX_TURNS : Nat) (state : InterviewState)
    (llm : CoordLLMResult) : Except String InterviewState :=
  if should_end_interview MAX_TURNS state then
    .ok { state with interview_complete := true }
  else
    match decide_next_step MAX_TURNS state llm with
    | .error e => .error e
    | .ok d =>
      let instr := some (d.instruction_to_interviewer.getD "")
      let s1 := { state with coordinator_instruction := instr }
      let s2 := if d.action = some "change_topic" ∧ (d.new_topic.getD "") ≠ ""
                then { s1 with current_topic := d.new_topic.getD "" }
                else s1
      let reasonPart := match d.reasoning with
        | some r => if r ≠ "" then ", обоснование: " ++ pyTake r 100 ++ "..."
                    else ""
        | none => ""
      let thought := "Решение: " ++ d.action.getD "continue" ++ reasonPart
      let s3 := { s2 with current_turn_thoughts := ["[Coordinator]: " ++ thought] }
      let s4 := if d.action = some "end_interview"
                then { s3 with interview_complete := true }
                else s3
      .ok s4

/-- InterviewWorkflow.generate_question from core/graph.py. -/
def generate_question_node (state : InterviewState) (llm alt : Option String) :
    InterviewState :=
  let question := interviewer_generate state.current_topic
    state.difficulty_level state.questions_asked llm alt
  let instrPart := match state.coordinator_instruction with
    | some i => if i ≠ "" then ", инструкция: " ++ pyTake i 100 ++ "..."
                else ""
    | none => ""
  let thought := "[Interviewer]: Сгенерирован вопрос по теме \x27" ++
    state.current_topic ++ "\x27" ++ instrPart
  { state with
      current_turn_thoughts := state.current_turn_thoughts ++ [thought]
      messages := state.messages ++ [{ role := "interviewer", content := question }]
      current_question := some question
      questions_asked := state.questions_asked ++ [question]
      current_answer := some "" }

/-- The stop keywords recognized in get_user_answer. -/
def stopWords : List String :=
  ["стоп", "stop", "завершить", "конец", "exit", "quit"]

/-- InterviewWorkflow.get_user_answer from core/graph.py; input none
models EOFError on reading the answer, which substitutes the stop word. -/
def get_user_answer (state : InterviewState) (input : Option String) :
    InterviewState :=
  let user_input := match input with
    | some s => pyStrip s
    | none => "стоп"
  if stopWords.contains (pyLower user_input) then
    { state with interview_complete := true, current_answer := some user_input }
  else
    { state with
        messages := state.messages ++ [{ role := "user", content := user_input }]
        current_turn_thoughts := state.current_turn_thoughts ++
          ["[System]: Получен ответ длиной " ++ toString user_input.data.length
            ++ " символов"]
        current_answer := some user_input }

/-- Internal-thoughts text assembled in InterviewWorkflow.analyze_answer
before the turn is appended to the log. -/
def buildInternalThoughts (thoughts : List String) (an : AnalysisDict) :
    String :=
  let p0 := String.join (thoughts.map (fun s => s ++ "\n"))
  let p1 := match an.reasoning with
    | some r => if r ≠ "" then "[Observer]: " ++ r ++ "\n" else ""
    | none => ""
  let p2 := match an.technical_score with
    | some s => "[Observer]: Техническая оценка: " ++ ratStr s ++ "/10\n"
    | none => ""
  let p3 := match an.communication_score with
    | some s => "[Observer]: Коммуникационная оценка: " ++ ratStr s ++ "/10\n"
    | none => ""
  let p4 := match an.recommendation_for_next_question with
    | some r => if r ≠ "" then "[Observer]: Рекомендация: " ++ r ++ "\n" else ""
    | none => ""
  pyStrip (p0 ++ p1 ++ p2 ++ p3 ++ p4)

/-- InterviewWorkflow.analyze_answer from core/graph.py.  Its generic
except handler swallows a raised analysis error, so the log and the
rest of the state stay as they were; the Assessment object, however,
keeps the in-place mutations the aborted update already made. -/
def analyze_answer_node (state : InterviewState) (ragEnabled : Bool)
    (rag : Option (ℚ × String)) (llm : ObsLLMResult) : InterviewState :=
  let question := state.current_question.getD ""
  let answer := state.current_answer.getD ""
  if question = "" ∨ answer = "" then state
  else
    match observer_analyze state.assessment question answer ragEnabled rag llm with
    | .skip _ _ => state
    | .raised a => { state with assessment := a }
    | .ok analysis a =>
      let internal_thoughts :=
        buildInternalThoughts state.current_turn_thoughts analysis
      { state with
          log_data := add_turn state.log_data question answer internal_thoughts
          assessment := a
          observer_recommendation :=
            some (analysis.recommendation_for_next_question.getD "")
          current_turn_thoughts := []
          coordinator_instruction := none }

/-- InterviewWorkflow.generate_feedback, reduced to its effect on the
persisted log (the feedback text itself comes from the Reporter call). -/
def generate_feedback_node (state : InterviewState) (feedbackText : String) :
    InterviewState :=
  { state with log_data := save_final_feedback state.log_data feedbackText }

/-- One step of the workflow graph: run the node of the current stage,
then follow the edge wiring of InterviewWorkflow.__init__ (the
conditional edge after coordinator_decision uses check_should_continue). -/
def runStep (MAX_TURNS : Nat) (o : Oracle) :
    Stage × InterviewState → Except String (Stage × InterviewState)
  | (.start, s) => .ok (.routing, start_interview_node s)
  | (.routing, s) =>
    match coordinator_decision_node MAX_TURNS s o.coordLLM with
    | .error e => .error e
    | .ok s2 =>
      if s2.interview_complete ∨ s2.questions_asked.length ≥ MAX_TURNS then
        .ok (.reporting, s2)
      else .ok (.asking, s2)
  | (.asking, s) =>
    .ok (.awaiting, generate_question_node s o.interviewerLLM o.interviewerAlt)
  | (.awaiting, s) => .ok (.evaluating, get_user_answer s o.userInput)
  | (.evaluating, s) =>
    .ok (.routing, analyze_answer_node s o.ragEnabled o.ragResult o.obsLLM)
  | (.reporting, s) => .ok (.done, generate_feedback_node s o.feedbackText)
  | (.done, s) => .ok (.done, s)

/-- A candidate used in the concrete scenarios below. -/
def sampleCandidate : CandidateInfo :=
  { name := "Тест", position := "Разработчик", grade := "Middle",
    experience_years := 3, technologies := ["Python"] }

/-- A session state with a given asked-question list, log turns and
pending question and answer, as the workflow reaches between turns. -/
def sampleState (qs : List String) (turns : List Turn)
    (q a : Option String) : InterviewState :=
  { candidate_info := sampleCandidate
    current_topic := "Python"
    difficulty_level := 2
    assessment := Assessment.init
    questions_asked := qs
    current_question := q
    current_answer := a
    log_data := { participant_name := "Тест", turns := turns,
                  final_feedback := "" } }

/-- Folding add_turn over a list of (question, answer, thoughts)
entries, as successive completed turns do. -/
def foldAddTurns (log : LogData) (entries : List (String × String × String)) :
    LogData :=
  entries.foldl (fun l e => add_turn l e.1 e.2.1 e.2.2) log

/-- All three running scores of an Assessment lie within the [0,10] band. -/
def scoresInRange (a : Assessment) : Prop :=
  (0 ≤ a.technical_score ∧ a.technical_score ≤ 10) ∧
  (0 ≤ a.communication_score ∧ a.communication_score ≤ 10) ∧
  (0 ≤ a.confidence_score ∧ a.confidence_score ≤ 10)

/-- The three per-turn score inputs of an evaluation are present and
lie within [0,10]. -/
def evalScoresInRange (an : AnalysisDict) : Prop :=
  (∃ x, an.technical_score = some x ∧ 0 ≤ x ∧ x ≤ 10) ∧
  (∃ x, an.communication_score = some x ∧ 0 ≤ x ∧ x ≤ 10) ∧
  (∃ x, an.confidence_score = some x ∧ 0 ≤ x ∧ x ≤ 10)

/-- A session state with five questions already asked. -/
def stateFiveQs : InterviewState :=
  sampleState ["В1?", "В2?", "В3?", "В4?", "В5?"] [] none none

/-- A session state with four questions already asked. -/
def stateFourQs : InterviewState :=
  sampleState ["В1?", "В2?", "В3?", "В4?"] [] none none

/-- A session state that has reached the max-turns limit of ten. -/
def stateTenQs : InterviewState :=
  sampleState ["В1?", "В2?", "В3?", "В4?", "В5?", "В6?", "В7?", "В8?", "В9?",
    "В10?"] [] none none

/-- A session state at the Awaiting Answer stage: one completed turn
already in the log and a second question pending. -/
def c4state : InterviewState :=
  sampleState ["Вопрос один?", "Вопрос два?"]
    [{ turn_id := 1, agent_visible_message := "Вопрос один?",
       user_message := "Ответ один", internal_thoughts := "мысли" }]
    (some "Вопрос два?") (some "")

/-- Oracle for the stop scenario: the candidate answers with the stop
word; every reasoning call fails, RAG is disabled. -/
def c4oracle : Oracle := { userInput := some "стоп" }

/-- An assessment mid-session, before one more turn is evaluated. -/
def c7assessment : Assessment :=
  { technical_score := 4, communication_score := 3, confidence_score := 2 }

/-- A syntactically valid parsed analysis that carries only a
technical score; every other key of the schema is missing. -/
def c7analysis : AnalysisDict := { technical_score := some 5 }

/-- The session state for the aborted-evaluation scenario. -/
def c7state : InterviewState :=
  { sampleState ["Вопрос один?", "Вопрос два?"]
      [{ turn_id := 1, agent_visible_message := "Вопрос один?",
         user_message := "Ответ один", internal_thoughts := "мысли" }]
      (some "Вопрос два?") (some "Ответ два") with
    assessment := c7assessment }

/-- An evaluation whose incoming technical score is 8, used by the
three-updates scenario. -/
def e8 : AnalysisDict := mkAnalysis 8 8 8 8 false [] false "adequate" "" ""

/-- A fully-populated evaluation with all scores inside [0,10]. -/
def witnessEval : AnalysisDict :=
  mkAnalysis 8 8 8 7 false [] false "adequate" "" ""

/- ------------------------------------------------------------------
Theorems.
------------------------------------------------------------------ -/

theorem add_turn_ids (log : LogData) (q a th : String) :
    (add_turn log q a th).turns.map (fun t => t.turn_id) =
      log.turns.map (fun t => t.turn_id) ++ [log.turns.length + 1] := by
  simp [add_turn]

theorem add_turn_len (log : LogData) (q a th : String) :
    (add_turn log q a th).turns.length = log.turns.length + 1 := by
  simp [add_turn]

theorem foldAddTurns_ids (entries : List (String × String × String)) :
    ∀ log : LogData,
      (foldAddTurns log entries).turns.map (fun t => t.turn_id) =
        log.turns.map (fun t => t.turn_id) ++
          List.range' (log.turns.length + 1) entries.length := by
  induction entries with
  | nil => intro log; simp [foldAddTurns]
  | cons e es ih =>
    intro log
    have step : foldAddTurns log (e :: es) =
        foldAddTurns (add_turn log e.1 e.2.1 e.2.2) es := by
      simp [foldAddTurns]
    rw [step, ih, add_turn_ids, add_turn_len]
    simp [List.range'_succ, List.append_assoc]

/-- C9: starting from the empty log, folding add_turn over N entries
yields turn_id values exactly 1..N in order, and every single add_turn
assigns turn_id equal to one plus the number of turns already logged. -/
theorem turn_ids_sequential :
    (∀ (c : CandidateInfo) (entries : List (String × String × String)),
      (foldAddTurns (init_log_data c) entries).turns.map (fun t => t.turn_id) =
        List.range' 1 entries.length) ∧
    (∀ (log : LogData) (q a th : String),
      ((add_turn log q a th).turns.getLast?).map (fun t => t.turn_id) =
        some (log.turns.length + 1)) := by
  constructor
  · intro c entries
    have h := foldAddTurns_ids entries (init_log_data c)
    simpa [init_log_data] using h
  · intro log q a th
    simp [add_turn]

/-- C6 counterexample: a declared-grade Junior with technical score 6
is mapped to "Junior", not to "Middle-ready Junior" as the claimed
table row for scores in [6,7) states. -/
theorem determine_level_junior_six :
    determine_level "Junior" 6 = "Junior" ∧
    determine_level "Junior" 6 ≠ "Middle-ready Junior" := by
  decide

/-- C6 (amended): the Reporter level lookup as the code computes it:
Junior maps to "Middle-ready Junior" only from technical score 7
upward and to "Junior" below 7; Middle maps to "Senior-ready Middle"
from 8, "Middle" on [6,8), "Junior+" below 6; Senior maps to "Senior"
from 9, "Middle+" on [7,9), and the Russian label "Под вопросом"
(under review) below 7. -/
theorem determine_level_table (s : ℚ) :
    (determine_level "Junior" s =
      if s ≥ 7 then "Middle-ready Junior" else "Junior") ∧
    (determine_level "Middle" s =
      if s ≥ 8 then "Senior-ready Middle"
      else if s ≥ 6 then "Middle" else "Junior+") ∧
    (determine_level "Senior" s =
      if s ≥ 9 then "Senior"
      else if s ≥ 7 then "Middle+" else "Под вопросом") := by
  have h1 : pyLower "Junior" = "junior" := by decide
  have h2 : pyLower "Middle" = "middle" := by decide
  have h3 : pyLower "Senior" = "senior" := by decide
  refine ⟨?_, ?_, ?_⟩ <;> simp [determine_level, h1, h2, h3]

/-- C2: with five questions asked, unparsable Coordinator output makes
decide_next_step raise (the fallback itself raises AttributeError)
instead of returning the deterministic fallback decision; with four
questions asked the claimed behavior does hold. -/
theorem coordinator_unparsable_raises :
    decide_next_step 10 stateFiveQs CoordLLMResult.unparsable =
      Except.error "AttributeError: Assessment object has no attribute get" ∧
    decide_next_step 10 stateFourQs CoordLLMResult.unparsable =
      create_fallback_decision 10 stateFourQs ∧
    create_fallback_decision 10 stateFourQs =
      Except.ok { action := some "continue", new_topic := some "Python",
                  new_difficulty := some 2,
                  reasoning := some "Продолжаем интервью (fallback)",
                  instruction_to_interviewer := some "Задай следующий вопрос" } := by
  refine ⟨rfl, rfl, rfl⟩

/-- C3: the fallback decision follows the claimed rule only outside
the band [5, max turns): below five questions it continues with the
current topic and difficulty, at the max-turns limit it ends, but for
a question count of five (with the limit at ten) it raises
AttributeError instead of deciding. -/
theorem fallback_decision_rule_crashes :
    create_fallback_decision 10 stateFiveQs =
      Except.error "AttributeError: Assessment object has no attribute get" ∧
    create_fallback_decision 10 stateFourQs =
      Except.ok { action := some "continue", new_topic := some "Python",
                  new_difficulty := some 2,
                  reasoning := some "Продолжаем интервью (fallback)",
                  instruction_to_interviewer := some "Задай следующий вопрос" } ∧
    create_fallback_decision 10 stateTenQs =
      Except.ok { action := some "end_interview", new_topic := some "Python",
                  new_difficulty := some 2,
                  reasoning := some "Достигнут лимит вопросов",
                  instruction_to_interviewer := some "Задай следующий вопрос" } := by
  refine ⟨rfl, rfl, rfl⟩

/-- C10: end-of-input while reading the answer behaves exactly like
submitting the stop word стоп: the resulting state equals the
stop-word state, with the termination flag set and the stop word
stored as the current answer, and a workflow step at Awaiting Answer
is identical under both inputs. -/
theorem eof_behaves_like_stop (s : InterviewState) :
    get_user_answer s none = get_user_answer s (some "стоп") ∧
    (get_user_answer s none).interview_complete = true ∧
    (get_user_answer s none).current_answer = some "стоп" ∧
    (∀ (MAX : Nat) (o : Oracle),
      runStep MAX { o with userInput := none } (Stage.awaiting, s) =
        runStep MAX { o with userInput := some "стоп" } (Stage.awaiting, s)) :=
  ⟨rfl, rfl, rfl, fun MAX o => rfl⟩

/-- C4: a stop-word answer at the Awaiting Answer stage does not go
straight to Reporting: the next stage is Evaluating, which appends a
new turn recording the stop word as an answer, and Reporting is
reached only two steps later with the log grown from one turn to two. -/
theorem stop_keyword_detours_through_evaluating :
    (runStep 10 c4oracle (Stage.awaiting, c4state)).map Prod.fst =
      Except.ok Stage.evaluating ∧
    ((runStep 10 c4oracle (Stage.awaiting, c4state)).bind
        (runStep 10 c4oracle)).map
        (fun p => p.2.log_data.turns.map (fun t =>
          (t.turn_id, t.agent_visible_message, t.user_message))) =
      Except.ok [(1, "Вопрос один?", "Ответ один"),
                 (2, "Вопрос два?", "стоп")] ∧
    (((runStep 10 c4oracle (Stage.awaiting, c4state)).bind
        (runStep 10 c4oracle)).bind (runStep 10 c4oracle)).map Prod.fst =
      Except.ok Stage.reporting ∧
    c4state.log_data.turns.map (fun t => t.turn_id) = [1] := by
  refine ⟨rfl, rfl, rfl, rfl⟩

/-- C7: a valid-JSON analysis missing the communication_score key
makes the assessment update raise KeyError after the technical score
was already mutated in place: the workflow keeps every previously
recorded turn, but the Assessment does not return to its pre-turn
value (technical score 4 became 4.3). -/
theorem evaluation_error_leaves_mutated_assessment :
    (updateAssessmentRun c7assessment c7analysis).2 =
      some "KeyError: communication_score" ∧
    (updateAssessmentRun c7assessment c7analysis).1.technical_score = 43/10 ∧
    c7assessment.technical_score = 4 ∧ (43/10 : ℚ) ≠ 4 ∧
    (analyze_answer_node c7state false none
        (ObsLLMResult.parsed c7analysis)).log_data.turns =
      c7state.log_data.turns ∧
    (analyze_answer_node c7state false none
        (ObsLLMResult.parsed c7analysis)).assessment.technical_score = 43/10 := by
  refine ⟨rfl, ?_, rfl, by norm_num, rfl, ?_⟩
  · norm_num [updateAssessmentRun, c7assessment, c7analysis]
  · show (updateAssessmentRun c7assessment c7analysis).1.technical_score = 43/10
    norm_num [updateAssessmentRun, c7assessment, c7analysis]

theorem update_scores (a : Assessment) (an : AnalysisDict) (t c f : ℚ)
    (ht : an.technical_score = some t) (hc : an.communication_score = some c)
    (hf : an.confidence_score = some f) :
    (updateAssessmentRun a an).1.technical_score =
        a.technical_score * 0.7 + t * 0.3 ∧
    (updateAssessmentRun a an).1.communication_score =
        a.communication_score * 0.7 + c * 0.3 ∧
    (updateAssessmentRun a an).1.confidence_score =
        a.confidence_score * 0.7 + f * 0.3 := by
  rcases hE : an.has_errors with _ | he <;>
  rcases hV : an.is_evasive with _ | ev <;>
  rcases hD : an.depth_of_knowledge with _ | dk <;>
  simp [updateAssessmentRun, ht, hc, hf, hE, hV, hD] <;>
  split_ifs <;> simp

/-- C8: the assessment update computes new = old*0.7 + incoming*0.3
for each of the three running scores, and three updates with incoming
technical score 8 starting from the zero-valued Assessment give
exactly 8*(1 - 0.7^3) = 5.256. -/
theorem assessment_smoothing_exact :
    (∀ (a : Assessment) (t cp cf cm : ℚ) (he : Bool) (errs : List String)
        (ev : Bool) (dk rec corr : String),
      (updateAssessmentRun a
          (mkAnalysis t cp cf cm he errs ev dk rec corr)).1.technical_score =
        a.technical_score * 0.7 + t * 0.3 ∧
      (updateAssessmentRun a
          (mkAnalysis t cp cf cm he errs ev dk rec corr)).1.communication_score =
        a.communication_score * 0.7 + cm * 0.3 ∧
      (updateAssessmentRun a
          (mkAnalysis t cp cf cm he errs ev dk rec corr)).1.confidence_score =
        a.confidence_score * 0.7 + cf * 0.3) ∧
    (applyEvaluations Assessment.init [e8, e8, e8]).technical_score =
      8 * (1 - 0.7 ^ 3) ∧
    (8 * (1 - 0.7 ^ 3) : ℚ) = 5.256 := by
  refine ⟨fun a t cp cf cm he errs ev dk rec corr =>
    update_scores a _ t cm cf rfl rfl rfl, ?_, by norm_num⟩
  have h1 := (update_scores Assessment.init e8 8 8 8 rfl rfl rfl).1
  have h2 := (update_scores (updateAssessmentRun Assessment.init e8).1 e8
    8 8 8 rfl rfl rfl).1
  have h3 := (update_scores
    (updateAssessmentRun (updateAssessmentRun Assessment.init e8).1 e8).1 e8
    8 8 8 rfl rfl rfl).1
  have hfold : applyEvaluations Assessment.init [e8, e8, e8] =
      (updateAssessmentRun (updateAssessmentRun
        (updateAssessmentRun Assessment.init e8).1 e8).1 e8).1 := by
    simp [applyEvaluations]
  rw [hfold, h3, h2, h1]
  have h0 : Assessment.init.technical_score = 0 := rfl
  rw [h0]
  norm_num

theorem smooth_bounds (o i : ℚ) (ho0 : 0 ≤ o) (ho1 : o ≤ 10)
    (hi0 : 0 ≤ i) (hi1 : i ≤ 10) :
    0 ≤ o * 0.7 + i * 0.3 ∧ o * 0.7 + i * 0.3 ≤ 10 := by
  constructor <;> nlinarith

theorem update_preserves_range (a : Assessment) (an : AnalysisDict)
    (ha : scoresInRange a) (han : evalScoresInRange an) :
    scoresInRange (updateAssessmentRun a an).1 := by
  obtain ⟨⟨t, ht, ht0, ht1⟩, ⟨c, hc, hc0, hc1⟩, ⟨f, hf, hf0, hf1⟩⟩ := han
  obtain ⟨⟨hA0, hA1⟩, ⟨hB0, hB1⟩, ⟨hC0, hC1⟩⟩ := ha
  obtain ⟨e1, e2, e3⟩ := update_scores a an t c f ht hc hf
  refine ⟨?_, ?_, ?_⟩
  · rw [e1]; exact smooth_bounds _ _ hA0 hA1 ht0 ht1
  · rw [e2]; exact smooth_bounds _ _ hB0 hB1 hc0 hc1
  · rw [e3]; exact smooth_bounds _ _ hC0 hC1 hf0 hf1

theorem applyEvaluations_range (l : List AnalysisDict) :
    ∀ a : Assessment, scoresInRange a → (∀ an ∈ l, evalScoresInRange an) →
      scoresInRange (applyEvaluations a l) := by
  induction l with
  | nil => intro a ha _; simpa [applyEvaluations] using ha
  | cons an l ih =>
    intro a ha hl
    have step : applyEvaluations a (an :: l) =
        applyEvaluations (updateAssessmentRun a an).1 l := by
      simp [applyEvaluations]
    rw [step]
    exact ih _ (update_preserves_range a an ha (hl an (by simp)))
      (fun x hx => hl x (by simp [hx]))

/-- C1: for every sequence of evaluations whose technical,
communication and confidence score inputs lie in [0,10], folding the
assessment update from the zero-valued Assessment keeps all three
running scores within [0,10]. -/
theorem assessment_scores_bounded (l : List AnalysisDict)
    (h : ∀ an ∈ l, evalScoresInRange an) :
    scoresInRange (applyEvaluations Assessment.init l) := by
  have hinit : scoresInRange Assessment.init := by
    refine ⟨⟨?_, ?_⟩, ⟨?_, ?_⟩, ⟨?_, ?_⟩⟩ <;> norm_num [Assessment.init]
  exact applyEvaluations_range l Assessment.init hinit h

/-- C1 witness: the bound theorem applied to the one-evaluation
sequence with scores 8, 7, 8. -/
theorem assessment_scores_bounded_witness :
    (∀ an ∈ [witnessEval], evalScoresInRange an) ∧
    scoresInRange (applyEvaluations Assessment.init [witnessEval]) := by
  have hyp : ∀ an ∈ [witnessEval], evalScoresInRange an := by
    intro an han
    have : an = witnessEval := by simpa using han
    subst this
    exact ⟨⟨8, rfl, by norm_num, by norm_num⟩,
           ⟨7, rfl, by norm_num, by norm_num⟩,
           ⟨8, rfl, by norm_num, by norm_num⟩⟩
  exact ⟨hyp, assessment_scores_bounded [witnessEval] hyp⟩

theorem contains_true_iff (l : List String) (a : String) :
    l.contains a = true ↔ a ∈ l := List.elem_iff

theorem lastCharIs_append_q (s : String) : lastCharIs (s ++ "?") '?' = true := by
  have h : (s ++ "?").data = s.data ++ ['?'] := String.data_append s "?"
  simp [lastCharIs, h, List.getLast?_concat]

theorem append_q_ne_empty (s : String) : s ++ "?" ≠ "" := by
  intro hcon
  have hdata : (s ++ "?").data = ([] : List Char) := by rw [hcon]
  rw [String.data_append] at hdata
  simp at hdata

theorem lastChar_ne_empty (s : String) (c : Char)
    (h : lastCharIs s c = true) : s ≠ "" := by
  intro hcon
  subst hcon
  simp [lastCharIs] at h

theorem bank_questions_spec :
    ∀ kv ∈ fallbackBank, ∀ q ∈ kv.2, q ≠ "" ∧ lastCharIs q '?' = true := by
  decide

theorem genericQuestion_ends (topic : String) :
    lastCharIs (genericQuestion topic) '?' = true := by
  unfold genericQuestion
  exact lastCharIs_append_q _

theorem genericQuestion_ne_empty (topic : String) :
    genericQuestion topic ≠ "" := by
  unfold genericQuestion
  exact append_q_ne_empty _

theorem get_fallback_question_spec (topic : String) (difficulty : Nat)
    (asked : List String) :
    get_fallback_question topic difficulty asked ≠ "" ∧
    lastCharIs (get_fallback_question topic difficulty asked) '?' = true ∧
    (get_fallback_question topic difficulty asked ∈ asked →
      get_fallback_question topic difficulty asked = genericQuestion topic) := by
  rcases hf : ((fallbackBank.filter
      (fun kv => containsSub kv.1.data (pyLower topic).data)).flatMap
      (fun kv => kv.2)).find? (fun q => !(asked.contains q)) with _ | q
  · have hval : get_fallback_question topic difficulty asked =
        genericQuestion topic := by
      simp only [get_fallback_question]
      rw [hf]
    rw [hval]
    exact ⟨genericQuestion_ne_empty topic, genericQuestion_ends topic,
      fun _ => rfl⟩
  · have hval : get_fallback_question topic difficulty asked = q := by
      simp only [get_fallback_question]
      rw [hf]
    have hpred := List.find?_some hf
    have hmem := List.mem_of_find?_eq_some hf
    obtain ⟨kv, hkv, hqkv⟩ := List.mem_flatMap.mp hmem
    have hbank : kv ∈ fallbackBank := (List.mem_filter.mp hkv).1
    obtain ⟨hne, hends⟩ := bank_questions_spec kv hbank q hqkv
    have hnotasked : q ∉ asked := by
      intro hin
      rw [Bool.not_eq_true', ← Bool.not_eq_true] at hpred
      exact hpred ((contains_true_iff asked q).mpr hin)
    rw [hval]
    exact ⟨hne, hends, fun hin => absurd hin hnotasked⟩

theorem generate_alternative_spec (topic : String) (difficulty : Nat)
    (asked : List String) (alt : Option String) :
    generate_alternative_question topic difficulty asked alt ≠ "" ∧
    (generate_alternative_question topic difficulty asked alt ∈ asked →
      generate_alternative_question topic difficulty asked alt =
        genericQuestion topic) ∧
    (lastCharIs (generate_alternative_question topic difficulty asked alt) '?'
        = false →
      ∃ r, alt = some r ∧
        generate_alternative_question topic difficulty asked alt = pyStrip r) := by
  cases alt with
  | none =>
    obtain ⟨h1, h2, h3⟩ := get_fallback_question_spec topic difficulty asked
    have hval : generate_alternative_question topic difficulty asked none =
        get_fallback_question topic difficulty asked := rfl
    rw [hval]
    exact ⟨h1, h3, fun hfalse => absurd h2 (by simp [hfalse])⟩
  | some r =>
    simp only [generate_alternative_question]
    by_cases hcond : pyStrip r ≠ "" ∧ ¬ asked.contains (pyStrip r)
    · rw [if_pos hcond]
      refine ⟨hcond.1, ?_, fun _ => ⟨r, rfl, rfl⟩⟩
      intro hmem
      exact absurd ((contains_true_iff asked (pyStrip r)).mpr hmem) hcond.2
    · rw [if_neg hcond]
      obtain ⟨h1, h2, h3⟩ := get_fallback_question_spec topic difficulty asked
      exact ⟨h1, h3, fun hfalse => absurd h2 (by simp [hfalse])⟩

/-- C5 counterexample: with the generic-template question for topic
Java already in the asked list and a failed generation call, the
Interviewer returns that very string again, byte-identical to an
already asked question. -/
theorem generated_question_duplicate :
    interviewer_generate "Java" 2 ["Расскажите о своем опыте работы с Java?"]
      none none = "Расскажите о своем опыте работы с Java?" ∧
    "Расскажите о своем опыте работы с Java?" ∈
      ["Расскажите о своем опыте работы с Java?"] := by
  refine ⟨rfl, by decide⟩

/-- C5 (amended): for every state with a non-empty asked list and any
outcomes of the two generation calls, the returned question is
non-empty; it duplicates an already asked question only when it is the
generic template string for the current topic; and it can fail to end
in a question mark only when it came verbatim (stripped) from the
regeneration attempt, which does not normalize the trailing character. -/
theorem interviewer_question_guarantees (topic : String) (difficulty : Nat)
    (asked : List String) (llm alt : Option String) (h : asked ≠ []) :
    interviewer_generate topic difficulty asked llm alt ≠ "" ∧
    (interviewer_generate topic difficulty asked llm alt ∈ asked →
      interviewer_generate topic difficulty asked llm alt =
        genericQuestion topic) ∧
    (lastCharIs (interviewer_generate topic difficulty asked llm alt) '?'
        = false →
      ∃ r, alt = some r ∧
        interviewer_generate topic difficulty asked llm alt = pyStrip r) := by
  cases llm with
  | none =>
    obtain ⟨h1, h2, h3⟩ := get_fallback_question_spec topic difficulty asked
    have hval : interviewer_generate topic difficulty asked none alt =
        get_fallback_question topic difficulty asked := rfl
    rw [hval]
    exact ⟨h1, h3, fun hfalse => absurd h2 (by simp [hfalse])⟩
  | some resp =>
    simp only [interviewer_generate]
    split_ifs with hend hdup hdup
    · exact generate_alternative_spec topic difficulty asked alt
    · refine ⟨lastChar_ne_empty _ _ hend, ?_, ?_⟩
      · intro hmem
        exact absurd ((contains_true_iff asked _).mpr hmem) (by simpa using hdup)
      · intro hfalse
        exact absurd hend (by simp [hfalse])
    · exact generate_alternative_spec topic difficulty asked alt
    · refine ⟨append_q_ne_empty _, ?_, ?_⟩
      · intro hmem
        exact absurd ((contains_true_iff asked _).mpr hmem) (by simpa using hdup)
      · intro hfalse
        exact absurd (lastCharIs_append_q (stripLeadMarkers (pyStrip resp)))
          (by simp [hfalse])

/-- C5 witness: the amended guarantees at topic Java with one asked
question and both generation calls failing. -/
theorem interviewer_question_guarantees_witness :
    ((["Вопрос один?"] : List String) ≠ []) ∧
    (interviewer_generate "Java" 2 ["Вопрос один?"] none none ≠ "" ∧
     (interviewer_generate "Java" 2 ["Вопрос один?"] none none ∈
        ["Вопрос один?"] →
       interviewer_generate "Java" 2 ["Вопрос один?"] none none =
         genericQuestion "Java") ∧
     (lastCharIs (interviewer_generate "Java" 2 ["Вопрос один?"] none none) '?'
        = false →
       ∃ r, (none : Option String) = some r ∧
         interviewer_generate "Java" 2 ["Вопрос один?"] none none = pyStrip r)) :=
  ⟨by decide,
   interviewer_question_guarantees "Java" 2 ["Вопрос один?"] none none
     (by decide)⟩

end Interview
